import Mathlib

/-!
# Verification of the tool-invocation conversation orchestrator

Shallow embedding of the directive parser, argument coercer, tool
executor and per-turn orchestration implemented in
`custom_function_calling.py` (positional, signature-typed argument
path), `openai_function_calling_example_step2.py` (keyed argument path,
termination and turn-limit guards) and
`function_calling/ollama_function_calling_example.py` (provider-native
tool calls with the same guards).

Python text is modelled as `List Char` (with `String` wrappers at the
API); Python floats as `Rat` (CPython's binary floats and their
shortest-round-trip `str` rendering are abstracted: no property proved
here inspects a non-integral numeric rendering); character classes
(`\s`, `\w`, `str.isdigit`, `str.lower`) are modelled on their ASCII
subsets, which cover every directive the system message instructs the
model to produce. Fallible Python operations (keyword binding of
`**kwargs`, arithmetic on mismatched types) return `Except`.
-/

/-- ASCII whitespace as matched by Python's `\s` and stripped by `str.strip()`
(the Unicode-only whitespace code points are not modelled). -/
def isPySpace (c : Char) : Bool :=
  c == ' ' || c == '\t' || c == '\n' || c == '\r' || c == '\x0b' || c == '\x0c'

/-- ASCII word characters, the `\w` class of the directive regex
(Unicode word characters are not modelled). -/
def isWordChar (c : Char) : Bool :=
  c.isAlphanum || c == '_'

/-- ASCII decimal digit, the characters accepted by `str.isdigit`
(Unicode digit code points are not modelled). -/
def isAsciiDigit (c : Char) : Bool :=
  '0' ≤ c && c ≤ '9'

/-- The two quote characters recognised by the argument tokenizer and by the
quote-stripping call `arg_part.strip('"\'')`. -/
def isQuoteChar (c : Char) : Bool :=
  c == '"' || c == '\''

/-- Remove leading and trailing characters satisfying `p`, the semantics of
Python's `str.strip` family (`strip()` with `p := isPySpace`,
`strip('"\'')` with `p := isQuoteChar`). -/
def pyStripWith (p : Char → Bool) (l : List Char) : List Char :=
  ((l.dropWhile p).reverse.dropWhile p).reverse

/-- Python `str.strip()` on character lists. -/
def pyStrip (l : List Char) : List Char :=
  pyStripWith isPySpace l

/-- Python `arg_part.strip('"\'')`: remove every leading and trailing quote
character of either kind. -/
def pyStripQuotes (l : List Char) : List Char :=
  pyStripWith isQuoteChar l

/-- Python `str.lower()` on the ASCII subset. -/
def pyLower (l : List Char) : List Char :=
  l.map Char.toLower

/-- Split at the first occurrence of `needle`, returning the text before it
and the text after it; `none` when `needle` does not occur.  This is the
occurrence search underlying Python's `in`, `str.split(sep, 1)` and the
literal-prefix scanning of the directive regexes. -/
def splitFirst (needle : List Char) : List Char → Option (List Char × List Char)
  | [] => if needle.isEmpty then some ([], []) else none
  | c :: cs =>
    if needle.isPrefixOf (c :: cs) then some ([], (c :: cs).drop needle.length)
    else
      match splitFirst needle cs with
      | some (pre, post) => some (c :: pre, post)
      | none => none

/-- Python's substring test `needle in hay`. -/
def pyContains (needle hay : String) : Bool :=
  (splitFirst needle.toList hay.toList).isSome

/-- Python `str.split(sep)` for a one-character separator: split at every
occurrence, keeping empty segments (`"a,,b"` gives three parts). -/
def pySplitOn (sep : Char) : List Char → List (List Char)
  | [] => [[]]
  | c :: cs =>
    if c == sep then [] :: pySplitOn sep cs
    else
      match pySplitOn sep cs with
      | [] => [[c]]
      | h :: t => (c :: h) :: t

/-- Numeric value of a run of ASCII digits. -/
def digitsToNat (l : List Char) : Nat :=
  l.foldl (fun acc c => acc * 10 + (c.toNat - 48)) 0

/-! Rational arithmetic is expressed through the normalizing constructor
`mkRat`, keeping every value in canonical form so that concrete runs of the
embedded code evaluate definitionally; `ratAdd_eq` and friends below certify
agreement with the standard field operations on `Rat`. -/

/-- Rational addition via `mkRat`. -/
def ratAdd (a b : Rat) : Rat := mkRat (a.num * b.den + b.num * a.den) (a.den * b.den)

/-- Rational subtraction via `mkRat`. -/
def ratSub (a b : Rat) : Rat := mkRat (a.num * b.den - b.num * a.den) (a.den * b.den)

/-- Rational multiplication via `mkRat`. -/
def ratMul (a b : Rat) : Rat := mkRat (a.num * b.num) (a.den * b.den)

/-- Rational (true) division via `mkRat`; division by zero yields 0, but every
use below is guarded by the source's zero test. -/
def ratDiv (a b : Rat) : Rat :=
  if b.num < 0 then mkRat (-(a.num * b.den)) (a.den * (-b.num).toNat)
  else mkRat (a.num * b.den) (a.den * b.num.toNat)

/-- The rational value of an integer, via `mkRat`. -/
def ratOfInt (n : Int) : Rat := mkRat n 1

/-- Parse the optional exponent tail of a Python float literal:
empty input succeeds with exponent 0, otherwise `e`/`E`, an optional sign and
at least one digit must consume the whole input. -/
def pyFloatExp? (l : List Char) : Option Int :=
  match l with
  | [] => some 0
  | e :: rest =>
    if e == 'e' || e == 'E' then
      match rest with
      | '+' :: ds => if ds ≠ [] && ds.all isAsciiDigit then some (digitsToNat ds) else none
      | '-' :: ds => if ds ≠ [] && ds.all isAsciiDigit then some (-(digitsToNat ds : Int)) else none
      | ds => if ds ≠ [] && ds.all isAsciiDigit then some (digitsToNat ds) else none
    else none

/-- Combine integer digits, fractional digits, sign and exponent into the
rational value of a decimal literal
`sign * (ip.fp) * 10^e = sign * (ip * 10^|fp| + fp) / 10^|fp| * 10^e`. -/
def decimalValue (sign : Int) (ip fp : List Char) (e : Int) : Rat :=
  let base : Int := (digitsToNat ip : Int) * (10 ^ fp.length : Nat) + (digitsToNat fp : Int)
  if 0 ≤ e then mkRat (sign * base * (10 ^ e.toNat : Nat)) (10 ^ fp.length)
  else mkRat (sign * base) (10 ^ fp.length * 10 ^ (-e).toNat)

/-- Python's `float(str)` on finite decimal literals: surrounding whitespace,
an optional sign, digits with at most one decimal point (at least one digit
overall) and an optional exponent.  `inf`/`nan` spellings and digit-group
underscores are not modelled; no directive in scope produces them.
`none` models the `ValueError` that the coercer catches. -/
def pyFloat? (s : List Char) : Option Rat :=
  let t := pyStrip s
  let signAndRest : Int × List Char :=
    match t with
    | '+' :: r => (1, r)
    | '-' :: r => (-1, r)
    | r => (1, r)
  let sign := signAndRest.1
  let t1 := signAndRest.2
  let ip := t1.takeWhile isAsciiDigit
  let r1 := t1.dropWhile isAsciiDigit
  match r1 with
  | '.' :: r2 =>
    let fp := r2.takeWhile isAsciiDigit
    let r3 := r2.dropWhile isAsciiDigit
    if ip.isEmpty && fp.isEmpty then none
    else
      match pyFloatExp? r3 with
      | some e => some (decimalValue sign ip fp e)
      | none => none
  | _ =>
    if ip.isEmpty then none
    else
      match pyFloatExp? r1 with
      | some e => some (decimalValue sign ip [] e)
      | none => none

/-- Python's `int(str)`: surrounding whitespace, optional sign, digits.
`none` models the `ValueError` that the coercer catches. -/
def pyInt? (s : List Char) : Option Int :=
  let t := pyStrip s
  let signAndRest : Int × List Char :=
    match t with
    | '+' :: r => (1, r)
    | '-' :: r => (-1, r)
    | r => (1, r)
  if signAndRest.2 ≠ [] && signAndRest.2.all isAsciiDigit then
    some (signAndRest.1 * (digitsToNat signAndRest.2 : Int))
  else none

/-- The Python values that flow through the argument coercers and into tool
dispatch: floats (as rationals), ints, booleans and strings. -/
inductive PyVal where
  | float (q : Rat)
  | int (n : Int)
  | bool (b : Bool)
  | str (s : String)
deriving DecidableEq, Repr

/-- Numeric view of a value: Python treats `bool` as the integers 0 and 1 in
arithmetic and comparisons; strings have no numeric view. -/
def pyNum? : PyVal → Option Rat
  | .float q => some q
  | .int n => some (ratOfInt n)
  | .bool b => some (ratOfInt (if b then 1 else 0))
  | .str _ => none

/-- Python `==` between the modelled values: cross-type numeric equality for
floats, ints and bools; string equality; numbers and strings never equal. -/
def pyEq (x y : PyVal) : Bool :=
  match pyNum? x, pyNum? y with
  | some a, some b => a == b
  | _, _ =>
    match x, y with
    | .str s, .str t => s == t
    | _, _ => false

/-- Whether a binary arithmetic result is a Python float (true when either
operand is a float). -/
def eitherFloat (x y : PyVal) : Bool :=
  (match x with | .float _ => true | _ => false) ||
  (match y with | .float _ => true | _ => false)

/-- Package a numeric result with Python's result typing: float when either
operand was a float, int otherwise (int results of int/bool arithmetic are
integral, so the numerator is the value). -/
def mkNum (isFloat : Bool) (q : Rat) : PyVal :=
  if isFloat then .float q else .int q.num

/-- Integer index view used by Python's sequence repetition `str * int`
(bools count as 0 and 1; floats do not). -/
def pyIndex? : PyVal → Option Int
  | .int n => some n
  | .bool b => some (if b then 1 else 0)
  | _ => none

/-- Python `+` on the modelled values: numeric addition, string
concatenation, `TypeError` otherwise. -/
def pyAdd (x y : PyVal) : Except String PyVal :=
  match pyNum? x, pyNum? y with
  | some a, some b => .ok (mkNum (eitherFloat x y) (ratAdd a b))
  | _, _ =>
    match x, y with
    | .str s, .str t => .ok (.str (s ++ t))
    | _, _ => .error "unsupported operand type(s) for +"

/-- Python `-` on the modelled values. -/
def pySub (x y : PyVal) : Except String PyVal :=
  match pyNum? x, pyNum? y with
  | some a, some b => .ok (mkNum (eitherFloat x y) (ratSub a b))
  | _, _ => .error "unsupported operand type(s) for -"

/-- Repeat a string `n` times (Python `str * int`, empty for `n ≤ 0`). -/
def strRepeat (s : String) (n : Int) : String :=
  (List.replicate n.toNat s).foldl (fun acc t => acc ++ t) ""

/-- Python `*` on the modelled values: numeric product, or string
repetition when one operand is a string and the other an int or bool. -/
def pyMul (x y : PyVal) : Except String PyVal :=
  match pyNum? x, pyNum? y with
  | some a, some b => .ok (mkNum (eitherFloat x y) (ratMul a b))
  | _, _ =>
    match x, y with
    | .str s, v =>
      match pyIndex? v with
      | some n => .ok (.str (strRepeat s n))
      | none => .error "unsupported operand type(s) for *"
    | v, .str s =>
      match pyIndex? v with
      | some n => .ok (.str (strRepeat s n))
      | none => .error "unsupported operand type(s) for *"
    | _, _ => .error "unsupported operand type(s) for *"

/-- Python `/` on the modelled values: true division, always a float;
`ZeroDivisionError` on a zero divisor, `TypeError` on strings. -/
def pyDiv (x y : PyVal) : Except String PyVal :=
  match pyNum? x, pyNum? y with
  | some a, some b =>
    if b.num == 0 then .error "division by zero"
    else .ok (.float (ratDiv a b))
  | _, _ => .error "unsupported operand type(s) for /"

/-- Python `str()` of a value.  Integral floats render as in CPython
(`str(8.0) = "8.0"`); the shortest-round-trip rendering of non-integral
floats is abstracted as `num/den` — no property proved in this file
inspects such a rendering. -/
def pyStr : PyVal → String
  | .float q =>
    if q.den = 1 then toString q.num ++ ".0"
    else toString q.num ++ "/" ++ toString q.den
  | .int n => toString n
  | .bool b => if b then "True" else "False"
  | .str s => s

/-! ## Directive parser

Both agent variants extract directives with the regular expression
`TOOL_CALL:\s*(\w+)\((.*?)\)\s*TOOL_CALL_END` under `re.DOTALL`, scanned
with `re.finditer`.  The literal `TOOL_CALL:` has no proper border and the
closing literal contains no `:`, so the leftmost-match scan is equivalent
to: find the next occurrence of `TOOL_CALL:`; attempt the rest of the
pattern there; on failure resume scanning after that occurrence.  The lazy
`(.*?)` stops at the first `)` that is followed, after greedy `\s*` (which
cannot backtrack into the `T` of the end literal), by `TOOL_CALL_END`. -/

/-- The opening literal of a directive. -/
def callTok : List Char := "TOOL_CALL:".toList

/-- The closing literal of a directive. -/
def endTok : List Char := "TOOL_CALL_END".toList

/-- Match `\s*(\w+)\(` immediately after the opening literal, returning the
captured name and the text after the opening parenthesis. -/
def parseHead (s : List Char) : Option (List Char × List Char) :=
  let s1 := s.dropWhile isPySpace
  let name := s1.takeWhile isWordChar
  let s2 := s1.dropWhile isWordChar
  if name.isEmpty then none
  else
    match s2 with
    | '(' :: rest => some (name, rest)
    | _ => none

/-- Lazy scan for `\)\s*TOOL_CALL_END`: the argument text ends at the first
`)` that is followed, after whitespace, by the closing literal; returns the
argument text and the text after the closing literal. -/
def findClose : List Char → Option (List Char × List Char)
  | [] => none
  | c :: cs =>
    if c == ')' && endTok.isPrefixOf (cs.dropWhile isPySpace) then
      some ([], (cs.dropWhile isPySpace).drop endTok.length)
    else
      match findClose cs with
      | some (args, rest) => some (c :: args, rest)
      | none => none

/-- `re.finditer` of the directive pattern: each match yields the captured
name and raw argument text; scanning resumes after a full match, or after a
failed occurrence of the opening literal.  The fuel argument only bounds the
recursion; every step consumes at least the opening literal, so an initial
fuel of the text length is never exhausted. -/
def findMatchesAux : Nat → List Char → List (List Char × List Char)
  | 0, _ => []
  | Nat.succ fuel, s =>
    match splitFirst callTok s with
    | none => []
    | some (_, rest) =>
      match parseHead rest with
      | none => findMatchesAux fuel rest
      | some (name, afterParen) =>
        match findClose afterParen with
        | none => findMatchesAux fuel rest
        | some (args, rest2) => (name, args) :: findMatchesAux fuel rest2

/-- All directive matches in a text, as (name, raw argument text) pairs. -/
def findMatches (s : List Char) : List (List Char × List Char) :=
  findMatchesAux s.length s

/-- `re.sub(r"TOOL_CALL:.*?TOOL_CALL_END", "", content, flags=re.DOTALL)`:
remove every lazy match of the removal pattern.  A step with an opening
literal but no later closing literal has no match anywhere after it. -/
def removeDirectivesAux : Nat → List Char → List Char
  | 0, s => s
  | Nat.succ fuel, s =>
    match splitFirst callTok s with
    | none => s
    | some (pre, rest) =>
      match splitFirst endTok rest with
      | none => s
      | some (_, rest2) => pre ++ removeDirectivesAux fuel rest2

/-- `ToolUseAgent._remove_tool_calls_from_content`: delete every directive
span and strip the surrounding whitespace of the result. -/
def removeToolCalls (content : String) : String :=
  (pyStrip (removeDirectivesAux content.toList.length content.toList)).asString

/-! ## Argument tokenization and coercion -/

/-- The quote-toggling comma splitter of `custom_function_calling.py`
(lines 125-141): walk the characters keeping a current part and an
in-quotes flag; a quote of either kind toggles the flag and is kept; a
comma outside quotes emits the stripped current part (even when empty);
the stripped tail is emitted only when non-empty. -/
def tokenizeAux : List Char → List Char → Bool → List (List Char)
  | [], cur, _ => if (pyStrip cur).isEmpty then [] else [pyStrip cur]
  | c :: cs, cur, inQ =>
    if c == '"' || c == '\'' then tokenizeAux cs (cur ++ [c]) (!inQ)
    else if c == ',' && !inQ then pyStrip cur :: tokenizeAux cs [] false
    else tokenizeAux cs (cur ++ [c]) inQ

/-- Quote-aware top-level argument tokenization (custom variant). -/
def tokenizeArgs (s : List Char) : List (List Char) :=
  tokenizeAux s [] false

/-- The naive comma splitter of `openai_function_calling_example_step2.py`
line 146: `[pair.strip() for pair in args_str.split(',')]` — every comma
splits, quoted or not. -/
def step2ArgPairs (s : List Char) : List (List Char) :=
  (pySplitOn ',' s).map pyStrip

/-- The declared parameter types driving the positional coercer. -/
inductive PyType where
  | float
  | int
  | bool
  | str
deriving DecidableEq, Repr

/-- The tool signature obtained in the source by reflection
(`inspect.signature(calculator)`), registered here as a static value:
`calculator(a: float, b: float, operator: str)`. -/
def toolSignature? (name : String) : Option (List (String × PyType)) :=
  if name = "calculator" then
    some [("a", PyType.float), ("b", PyType.float), ("operator", PyType.str)]
  else none

/-- Positional, signature-typed coercion (`custom_function_calling.py`
lines 156-168): float and int parameters attempt a numeric parse and fall
back to the raw string on `ValueError`; bool parameters test case-insensitive
membership in `("true", "1", "yes")`; string parameters pass unchanged. -/
def coerceCustom (t : PyType) (v : List Char) : PyVal :=
  match t with
  | .float =>
    match pyFloat? v with
    | some q => .float q
    | none => .str v.asString
  | .int =>
    match pyInt? v with
    | some n => .int n
    | none => .str v.asString
  | .bool =>
    let w := (pyLower v).asString
    .bool (w == "true" || w == "1" || w == "yes")
  | .str => .str v.asString

/-- One parsed tool call: the `id` is `"call_"` plus the call's 0-based
index within the message; the argument mapping is an insertion-ordered
association list (the source's `dict` round-tripped through
`json.dumps`/`json.loads`, modelled as the identity on these values). -/
structure ToolCall where
  id : String
  name : String
  args : List (String × PyVal)
deriving DecidableEq, Repr

/-- Bind positional argument tokens to the registered signature
(`custom_function_calling.py` lines 143-171): when the tool is not
registered the mapping stays empty; otherwise the i-th token is
quote-stripped, coerced by the i-th declared type and bound to the i-th
parameter name; tokens beyond the signature are dropped. -/
def bindCustomArgs (name : String) (argsStr : List Char) : List (String × PyVal) :=
  if (pyStrip argsStr).isEmpty then []
  else
    match toolSignature? name with
    | none => []
    | some params =>
      (tokenizeArgs argsStr).enum.filterMap (fun p =>
        match params[p.1]? with
        | some pt => some (pt.1, coerceCustom pt.2 (pyStripQuotes p.2))
        | none => none)

/-- `ToolUseAgent._parse_tool_calls` of `custom_function_calling.py`. -/
def parseToolCallsCustom (content : String) : List ToolCall :=
  (findMatches content.toList).enum.map (fun m =>
    { id := "call_" ++ toString m.1,
      name := m.2.1.asString,
      args := bindCustomArgs m.2.1.asString m.2.2 })

/-- Python's `value.replace('.', '', 1).isdigit()` test of the keyed
coercer: after deleting the first `.` (if any) the token is non-empty and
all digits. -/
def digitDotTest (v : List Char) : Bool :=
  let w :=
    match splitFirst ['.'] v with
    | some (a, b) => a ++ b
    | none => v
  !w.isEmpty && w.all isAsciiDigit

/-- Signature-independent keyed coercion
(`openai_function_calling_example_step2.py` lines 153-159): the literal
tokens `true`/`false` (case-insensitive) become booleans; a token passing
the digit test becomes a float (`float(value)` cannot fail on an ASCII
digit token, so the unreachable fallback keeps the string); anything else
stays a string. -/
def coerceStep2 (v : List Char) : PyVal :=
  if pyLower v = "true".toList then .bool true
  else if pyLower v = "false".toList then .bool false
  else if digitDotTest v then
    match pyFloat? v with
    | some q => .float q
    | none => .str v.asString
  else .str v.asString

/-- Python `dict` insertion: replace the value in place when the key
exists, append otherwise. -/
def dictInsert (k : String) (v : PyVal) : List (String × PyVal) → List (String × PyVal)
  | [] => [(k, v)]
  | p :: rest => if p.1 = k then (k, v) :: rest else p :: dictInsert k v rest

/-- One iteration of the keyed binding loop
(`openai_function_calling_example_step2.py` lines 147-161): a token without
`=` leaves the mapping unchanged; otherwise split at the first `=`, strip
both sides, coerce the value and insert. -/
def step2Insert (args : List (String × PyVal)) (pair : List Char) : List (String × PyVal) :=
  match splitFirst ['='] pair with
  | none => args
  | some (k, v) => dictInsert (pyStrip k).asString (coerceStep2 (pyStrip v)) args

/-- Keyed argument binding (`openai_function_calling_example_step2.py`
lines 143-161): split on every comma and fold the binding loop over the
stripped tokens. -/
def bindStep2Args (argsStr : List Char) : List (String × PyVal) :=
  if (pyStrip argsStr).isEmpty then []
  else (step2ArgPairs argsStr).foldl step2Insert []

/-- `ToolUseAgent._parse_tool_calls` of
`openai_function_calling_example_step2.py`. -/
def parseToolCallsStep2 (content : String) : List ToolCall :=
  (findMatches content.toList).enum.map (fun m =>
    { id := "call_" ++ toString m.1,
      name := m.2.1.asString,
      args := bindStep2Args m.2.2 })

/-! ## Tool registry and executor -/

/-- The `try`-wrapped body of the `calculator` tool: each branch compares
the operator with Python `==`, guards division by a numeric-zero test
`b == 0`, and renders results with `str`; an unrecognised operator is a
normal result string.  An arithmetic `TypeError` escapes to the tool's own
`except` clause. -/
def calculatorTry (a b op : PyVal) : Except String String :=
  if pyEq op (.str "+") then (pyAdd a b).map pyStr
  else if pyEq op (.str "-") then (pySub a b).map pyStr
  else if pyEq op (.str "*") then (pyMul a b).map pyStr
  else if pyEq op (.str "/") then
    if pyEq b (.int 0) then .ok "Error: Division by zero"
    else (pyDiv a b).map pyStr
  else .ok "Error: Invalid operator. Please use +, -, *, or /"

/-- The `calculator` tool function: its body is wrapped in
`try/except`, so every internal failure is returned as an
`"Error: ..."` string — the tool itself never raises. -/
def calculator (a b op : PyVal) : String :=
  match calculatorTry a b op with
  | .ok s => s
  | .error e => "Error: " ++ e

/-- Python keyword binding of `calculator(a, b, operator)` against
`**function_args`: binding succeeds exactly when the mapping's keys are
among the three parameter names and each parameter is present; otherwise
the call raises `TypeError` before the tool body runs. -/
def callCalculator (args : List (String × PyVal)) : Except String String :=
  if args.all (fun p => p.1 == "a" || p.1 == "b" || p.1 == "operator") then
    match args.lookup "a", args.lookup "b", args.lookup "operator" with
    | some a, some b, some op => .ok (calculator a b op)
    | _, _, _ => .error "TypeError: calculator() missing required positional arguments"
  else .error "TypeError: calculator() got an unexpected keyword argument"

/-- The module-level registry `tool_functions`: tool name to dispatcher.
Dispatch itself is fallible (keyword binding), hence `Except`-valued. -/
def toolFunctions : List (String × (List (String × PyVal) → Except String String)) :=
  [("calculator", callCalculator)]

/-- One executed tool result, destined for a `role: tool` history message. -/
structure ToolResult where
  toolCallId : String
  name : String
  content : String
deriving DecidableEq, Repr

/-- `ToolUseAgent.process_tool_calls` (identical in both OpenAI variants):
a call whose name is not registered is silently skipped; a registered
call is dispatched with keyword binding, and a binding `TypeError`
propagates (`.error`), discarding the results collected so far. -/
def processToolCalls : List ToolCall → Except String (List ToolResult)
  | [] => .ok []
  | c :: rest =>
    match toolFunctions.lookup c.name with
    | none => processToolCalls rest
    | some dispatch =>
      match dispatch c.args with
      | .error e => .error e
      | .ok result =>
        match processToolCalls rest with
        | .error e => .error e
        | .ok rs => .ok ({ toolCallId := c.id, name := c.name, content := result } :: rs)

/-! ## Conversation history and per-turn orchestration -/

/-- One history message.  `add_message` sets `name`/`toolCallId` only for
truthy arguments; the assistant message's `tool_calls` key is present only
when calls were parsed, modelled by the (possibly empty) list. -/
structure PyMessage where
  role : String
  content : String
  name : Option String
  toolCallId : Option String
  toolCalls : List ToolCall
deriving DecidableEq, Repr

/-- Python truthiness of an optional string argument (`if name:`):
`None` and the empty string are falsy. -/
def truthyStr : Option String → Option String
  | none => none
  | some s => if s = "" then none else some s

/-- The mutable agent fields read and written by `handle_message`:
the history, the turn counter and the optional turn limit
(`custom_function_calling.py`'s agent has no limit and never reads the
field). -/
structure AgentState where
  messages : List PyMessage
  messageCount : Nat
  maxMessages : Option Nat
deriving DecidableEq, Repr

/-- `ToolUseAgent.add_message`: append a role-tagged message, keeping the
optional fields only when truthy. -/
def addMessage (st : AgentState) (role content : String)
    (nm toolCallId : Option String) : AgentState :=
  { st with
    messages := st.messages ++
      [{ role := role, content := content, name := truthyStr nm,
         toolCallId := truthyStr toolCallId, toolCalls := [] }] }

/-- Append the first-round assistant message, which carries the clean
content and the parsed tool-call list. -/
def addAssistantMessage (st : AgentState) (content : String)
    (toolCalls : List ToolCall) : AgentState :=
  { st with
    messages := st.messages ++
      [{ role := "assistant", content := content, name := none,
         toolCallId := none, toolCalls := toolCalls }] }

/-- Python truthiness of the optional turn limit (`if self.max_messages`):
`None` and `0` are falsy. -/
def truthyNatOpt : Option Nat → Bool
  | none => false
  | some n => n != 0

deriving instance DecidableEq for Except

/-- Outcome of one `handle_message` call: the agent state after the turn
(mutations persist even when an exception escapes), the number of
completion-provider requests issued during the turn, and either the
returned value (`some` answer or the `None` terminal sentinel) or an
uncaught Python exception. -/
structure TurnResult where
  state : AgentState
  requests : Nat
  outcome : Except String (Option String)
deriving DecidableEq, Repr

/-- Append one `role: tool` message per executed result, in order. -/
def appendToolResults (st : AgentState) (results : List ToolResult) : AgentState :=
  results.foldl (fun s r => addMessage s "tool" r.content (some r.name) (some r.toolCallId)) st

/-- The agent state after the first two mutations of a non-terminal turn:
the counter incremented and the user message appended. -/
def turnHistory (st : AgentState) (userInput : String) : AgentState :=
  addMessage
    { messages := st.messages, messageCount := st.messageCount + 1,
      maxMessages := st.maxMessages } "user" userInput none none

/-- The history over which completion request #1 is issued. -/
def firstReplyHistory (st : AgentState) (userInput : String) : List PyMessage :=
  (turnHistory st userInput).messages

/-- Shared body of the two OpenAI-variant turns, after the guards: append
the user message, issue completion request #1, parse directives with the
given parser, strip them from the content, append the assistant message;
with no calls the turn ends after one request; otherwise process the
calls (a binding fault aborts the turn, its exception propagating),
append the tool results, issue completion request #2 and append and
return its content. -/
def runTurn (parse : String → List ToolCall) (provider : List PyMessage → String)
    (st : AgentState) (userInput : String) : TurnResult :=
  let st2 := turnHistory st userInput
  let content := provider (firstReplyHistory st userInput)
  let toolCalls := parse content
  let cleanContent := removeToolCalls content
  let st3 := addAssistantMessage st2 cleanContent toolCalls
  if toolCalls.isEmpty then
    { state := st3, requests := 1, outcome := .ok (some cleanContent) }
  else
    match processToolCalls toolCalls with
    | .error e => { state := st3, requests := 1, outcome := .error e }
    | .ok results =>
      let st4 := appendToolResults st3 results
      let finalContent := provider st4.messages
      let st5 := addMessage st4 "assistant" finalContent none none
      { state := st5, requests := 2, outcome := .ok (some finalContent) }

/-- `ToolUseAgent.handle_message` of `custom_function_calling.py`: no
termination or limit guard; positional parser. -/
def handleMessageCustom (provider : List PyMessage → String)
    (st : AgentState) (userInput : String) : TurnResult :=
  runTurn parseToolCallsCustom provider st userInput

/-- The turn-limit guard of the step2 and Ollama variants:
`if self.max_messages and self.message_count >= self.max_messages`. -/
def limitReached (st : AgentState) : Bool :=
  truthyNatOpt st.maxMessages && decide (st.maxMessages.getD 0 ≤ st.messageCount)

/-- `ToolUseAgent.handle_message` of
`openai_function_calling_example_step2.py`: a user text containing
`TERMINATE`, or a reached turn limit, returns the `None` sentinel before
any mutation or request; otherwise the keyed-parser turn runs. -/
def handleMessageStep2 (provider : List PyMessage → String)
    (st : AgentState) (userInput : String) : TurnResult :=
  if pyContains "TERMINATE" userInput then
    { state := st, requests := 0, outcome := .ok none }
  else if limitReached st then
    { state := st, requests := 0, outcome := .ok none }
  else
    runTurn parseToolCallsStep2 provider st userInput

/-- A provider-native tool call as the Ollama variant consumes it
(the `tool_call.function` shape; the source's duck-typed dict fallback
reads the same name and argument mapping). -/
structure OllamaToolCall where
  name : String
  arguments : List (String × PyVal)
  callId : Option String
deriving DecidableEq, Repr

/-- One Ollama chat reply: optional content plus provider-parsed calls. -/
structure OllamaReply where
  content : Option String
  toolCalls : List OllamaToolCall
deriving DecidableEq, Repr

/-- The per-call loop of the Ollama variant: a registered call is
dispatched with keyword binding and its result message appended
immediately (so appends made before a later binding fault persist);
an unregistered call is skipped. -/
def ollamaRunCalls (st : AgentState) : List OllamaToolCall → Except (AgentState × String) AgentState
  | [] => .ok st
  | c :: rest =>
    match toolFunctions.lookup c.name with
    | none => ollamaRunCalls st rest
    | some dispatch =>
      match dispatch c.arguments with
      | .error e => .error (st, e)
      | .ok result =>
        ollamaRunCalls (addMessage st "tool" result (some c.name) c.callId) rest

/-- `ToolUseAgent.handle_message` of
`function_calling/ollama_function_calling_example.py`: the same
termination and limit guards; the provider returns content and native
tool calls; the assistant message keeps the raw content (nothing is
stripped); with calls present, each is executed and appended, then a
second request produces the returned content. -/
def handleMessageOllama (provider : List PyMessage → OllamaReply)
    (st : AgentState) (userInput : String) : TurnResult :=
  if pyContains "TERMINATE" userInput then
    { state := st, requests := 0, outcome := .ok none }
  else if limitReached st then
    { state := st, requests := 0, outcome := .ok none }
  else
    let st2 := turnHistory st userInput
    let reply := provider (firstReplyHistory st userInput)
    let content := reply.content.getD ""
    let st3 := addAssistantMessage st2 content []
    if reply.toolCalls.isEmpty then
      { state := st3, requests := 1, outcome := .ok (some content) }
    else
      match ollamaRunCalls st3 reply.toolCalls with
      | .error p => { state := p.1, requests := 1, outcome := .error p.2 }
      | .ok st4 =>
        let finalContent := (provider st4.messages).content.getD ""
        let st5 := addMessage st4 "assistant" finalContent none none
        { state := st5, requests := 2, outcome := .ok (some finalContent) }

/-! ## Supporting lemmas -/

theorem toList_asString (l : List Char) : (List.asString l).toList = l := rfl

theorem dropWhile_eq_self_of_head (p : Char → Bool) (l : List Char)
    (h : ∀ c, l.head? = some c → p c = false) : l.dropWhile p = l := by
  cases l with
  | nil => rfl
  | cons c cs =>
    have hc : p c = false := h c rfl
    simp [List.dropWhile_cons, hc]

theorem head_dropWhile_false (p : Char → Bool) :
    ∀ (l : List Char) (c : Char), (l.dropWhile p).head? = some c → p c = false := by
  intro l
  induction l with
  | nil => intro c h; simp at h
  | cons a as ih =>
    intro c h
    by_cases ha : p a
    · rw [List.dropWhile_cons, if_pos ha] at h
      exact ih c h
    · rw [List.dropWhile_cons, if_neg ha] at h
      have hac : a = c := by simpa using h
      subst hac
      exact Bool.of_not_eq_true ha

theorem dropWhile_dropWhile (p : Char → Bool) (l : List Char) :
    (l.dropWhile p).dropWhile p = l.dropWhile p :=
  dropWhile_eq_self_of_head p _ (head_dropWhile_false p l)

theorem pyStripWith_head (p : Char → Bool) (l : List Char) :
    ∀ c, (pyStripWith p l).head? = some c → p c = false := by
  intro c h
  unfold pyStripWith at h
  set d := l.dropWhile p with hd
  set s := d.reverse.dropWhile p with hs
  have hsuf : s <:+ d.reverse := hs ▸ List.dropWhile_suffix p
  have hpre : s.reverse <+: d := by
    rw [← List.reverse_reverse d]
    exact List.reverse_prefix.mpr hsuf
  obtain ⟨t, ht⟩ := hpre
  have hdh : d.head? = some c := by
    cases hrs : s.reverse with
    | nil => rw [hrs] at h; simp at h
    | cons x xs =>
      rw [hrs] at h
      have hxc : x = c := by simpa using h
      rw [hrs] at ht
      rw [← ht, hxc]
      rfl
  rw [hd] at hdh
  exact head_dropWhile_false p l c hdh

theorem pyStripWith_getLast (p : Char → Bool) (l : List Char) :
    ∀ c, (pyStripWith p l).getLast? = some c → p c = false := by
  intro c h
  unfold pyStripWith at h
  rw [List.getLast?_reverse] at h
  exact head_dropWhile_false p _ c h

theorem pyStripWith_idem (p : Char → Bool) (l : List Char) :
    pyStripWith p (pyStripWith p l) = pyStripWith p l := by
  have h1 : (pyStripWith p l).dropWhile p = pyStripWith p l :=
    dropWhile_eq_self_of_head p _ (pyStripWith_head p l)
  show ((((pyStripWith p l).dropWhile p).reverse).dropWhile p).reverse = pyStripWith p l
  rw [h1]
  unfold pyStripWith
  rw [List.reverse_reverse, dropWhile_dropWhile]

theorem pyStrip_idem (l : List Char) : pyStrip (pyStrip l) = pyStrip l :=
  pyStripWith_idem isPySpace l

/-- Decompose a list around its `pyStripWith` core: the removed margins
consist only of characters satisfying `p`. -/
theorem pyStripWith_decomp (p : Char → Bool) (l : List Char) :
    ∃ pre post, l = pre ++ pyStripWith p l ++ post ∧
      (∀ c ∈ pre, p c = true) ∧ (∀ c ∈ post, p c = true) := by
  refine ⟨l.takeWhile p, ((l.dropWhile p).reverse.takeWhile p).reverse, ?_, ?_, ?_⟩
  · have h2 : (l.dropWhile p).reverse =
        (l.dropWhile p).reverse.takeWhile p ++ (l.dropWhile p).reverse.dropWhile p :=
      (List.takeWhile_append_dropWhile p (l.dropWhile p).reverse).symm
    have h3 : l.dropWhile p =
        pyStripWith p l ++ ((l.dropWhile p).reverse.takeWhile p).reverse := by
      have h4 := congrArg List.reverse h2
      rw [List.reverse_reverse, List.reverse_append] at h4
      exact h4
    calc l = l.takeWhile p ++ l.dropWhile p := (List.takeWhile_append_dropWhile p l).symm
    _ = l.takeWhile p ++
        (pyStripWith p l ++ ((l.dropWhile p).reverse.takeWhile p).reverse) := by rw [← h3]
    _ = l.takeWhile p ++ pyStripWith p l ++
        ((l.dropWhile p).reverse.takeWhile p).reverse := by rw [List.append_assoc]
  · intro c hc
    exact List.mem_takeWhile_imp hc
  · intro c hc
    rw [List.mem_reverse] at hc
    exact List.mem_takeWhile_imp hc

theorem splitFirst_none_of_contains_false (needle hay : String)
    (h : pyContains needle hay = false) : splitFirst needle.toList hay.toList = none := by
  unfold pyContains at h
  cases hs : splitFirst needle.toList hay.toList with
  | none => rfl
  | some q => rw [hs] at h; simp at h

theorem findMatchesAux_nil (fuel : Nat) (s : List Char)
    (h : splitFirst callTok s = none) : findMatchesAux fuel s = [] := by
  cases fuel with
  | zero => rfl
  | succ n => unfold findMatchesAux; rw [h]

theorem removeDirectivesAux_id (fuel : Nat) (s : List Char)
    (h : splitFirst callTok s = none) : removeDirectivesAux fuel s = s := by
  cases fuel with
  | zero => rfl
  | succ n => unfold removeDirectivesAux; rw [h]

theorem parseCustom_nil_of_no_marker (s : String)
    (h : pyContains "TOOL_CALL:" s = false) : parseToolCallsCustom s = [] := by
  unfold parseToolCallsCustom findMatches
  rw [findMatchesAux_nil _ _ (splitFirst_none_of_contains_false _ _ h)]
  rfl

theorem parseStep2_nil_of_no_marker (s : String)
    (h : pyContains "TOOL_CALL:" s = false) : parseToolCallsStep2 s = [] := by
  unfold parseToolCallsStep2 findMatches
  rw [findMatchesAux_nil _ _ (splitFirst_none_of_contains_false _ _ h)]
  rfl

theorem removeToolCalls_of_no_marker (s : String)
    (h : pyContains "TOOL_CALL:" s = false) :
    removeToolCalls s = (pyStrip s.toList).asString := by
  unfold removeToolCalls
  rw [removeDirectivesAux_id _ _ (splitFirst_none_of_contains_false _ _ h)]

theorem addMessage_messageCount (st : AgentState) (role content : String)
    (nm tid : Option String) :
    (addMessage st role content nm tid).messageCount = st.messageCount :=
  rfl

theorem appendToolResults_messageCount :
    ∀ (rs : List ToolResult) (st : AgentState),
      (appendToolResults st rs).messageCount = st.messageCount := by
  intro rs
  induction rs with
  | nil => intro st; rfl
  | cons r rest ih =>
    intro st
    show (appendToolResults
      (addMessage st "tool" r.content (some r.name) (some r.toolCallId)) rest).messageCount = _
    rw [ih]
    rfl

theorem runTurn_requests_nil (parse : String → List ToolCall)
    (provider : List PyMessage → String) (st : AgentState) (input : String)
    (h : parse (provider (firstReplyHistory st input)) = []) :
    (runTurn parse provider st input).requests = 1 := by
  simp only [runTurn, h, List.isEmpty_nil, if_true]

theorem runTurn_requests_ok (parse : String → List ToolCall)
    (provider : List PyMessage → String) (st : AgentState) (input : String)
    (rs : List ToolResult)
    (hne : parse (provider (firstReplyHistory st input)) ≠ [])
    (hok : processToolCalls (parse (provider (firstReplyHistory st input))) = .ok rs) :
    (runTurn parse provider st input).requests = 2 := by
  simp only [runTurn]
  rcases hc : parse (provider (firstReplyHistory st input)) with _ | ⟨c, cs⟩
  · exact absurd hc hne
  · rw [hc] at hok
    simp only [List.isEmpty_cons, Bool.false_eq_true, if_false, hok]

theorem runTurn_requests_error (parse : String → List ToolCall)
    (provider : List PyMessage → String) (st : AgentState) (input : String)
    (e : String)
    (herr : processToolCalls (parse (provider (firstReplyHistory st input))) = .error e) :
    (runTurn parse provider st input).requests = 1 ∧
      (runTurn parse provider st input).outcome = .error e := by
  simp only [runTurn]
  rcases hc : parse (provider (firstReplyHistory st input)) with _ | ⟨c, cs⟩
  · rw [hc] at herr
    simp [processToolCalls] at herr
  · rw [hc] at herr
    simp only [List.isEmpty_cons, Bool.false_eq_true, if_false, herr]
    constructor <;> trivial

theorem runTurn_requests_le (parse : String → List ToolCall)
    (provider : List PyMessage → String) (st : AgentState) (input : String) :
    (runTurn parse provider st input).requests ≤ 2 := by
  simp only [runTurn]
  rcases hc : parse (provider (firstReplyHistory st input)) with _ | ⟨c, cs⟩
  · simp
  · simp only [List.isEmpty_cons, Bool.false_eq_true, if_false]
    rcases hp : processToolCalls (c :: cs) with e | rs
    · simp
    · simp

theorem runTurn_messageCount (parse : String → List ToolCall)
    (provider : List PyMessage → String) (st : AgentState) (input : String) :
    (runTurn parse provider st input).state.messageCount = st.messageCount + 1 := by
  simp only [runTurn]
  rcases hc : parse (provider (firstReplyHistory st input)) with _ | ⟨c, cs⟩
  · rfl
  · simp only [List.isEmpty_cons, Bool.false_eq_true, if_false]
    rcases hp : processToolCalls (c :: cs) with e | rs
    · rfl
    · show (addMessage (appendToolResults _ rs) "assistant" _ none none).messageCount = _
      rw [addMessage_messageCount, appendToolResults_messageCount]
      rfl

/-- State reached by the Ollama per-call loop, whether or not a binding
fault aborted it. -/
def ollamaLoopState : Except (AgentState × String) AgentState → AgentState
  | .ok st => st
  | .error p => p.1

theorem ollamaRunCalls_messageCount :
    ∀ (calls : List OllamaToolCall) (st : AgentState),
      (ollamaLoopState (ollamaRunCalls st calls)).messageCount = st.messageCount := by
  intro calls
  induction calls with
  | nil => intro st; rfl
  | cons c rest ih =>
    intro st
    rcases hl : toolFunctions.lookup c.name with _ | dispatch
    · simp only [ollamaRunCalls, hl]
      exact ih st
    · rcases hd : dispatch c.arguments with e | result
      · simp only [ollamaRunCalls, hl, hd]
        rfl
      · simp only [ollamaRunCalls, hl, hd]
        rw [ih]
        rfl

theorem handleMessageOllama_messageCount (provider : List PyMessage → OllamaReply)
    (st : AgentState) (input : String)
    (hterm : pyContains "TERMINATE" input = false)
    (hlim : limitReached st = false) :
    (handleMessageOllama provider st input).state.messageCount = st.messageCount + 1 := by
  simp only [handleMessageOllama, hterm, hlim, Bool.false_eq_true, if_false]
  rcases hc : (provider (firstReplyHistory st input)).toolCalls with _ | ⟨c, cs⟩
  · rfl
  · simp only [List.isEmpty_cons, Bool.false_eq_true, if_false]
    rcases hr : ollamaRunCalls (addAssistantMessage (turnHistory st input)
      ((provider (firstReplyHistory st input)).content.getD "") []) (c :: cs) with p | st4
    · have hmc := ollamaRunCalls_messageCount (c :: cs)
        (addAssistantMessage (turnHistory st input)
          ((provider (firstReplyHistory st input)).content.getD "") [])
      rw [hr] at hmc
      exact hmc
    · have hmc := ollamaRunCalls_messageCount (c :: cs)
        (addAssistantMessage (turnHistory st input)
          ((provider (firstReplyHistory st input)).content.getD "") [])
      rw [hr] at hmc
      show (addMessage st4 "assistant" _ none none).messageCount = _
      rw [addMessage_messageCount]
      exact hmc

/-! Agreement of the `mkRat`-phrased arithmetic with the standard `Rat`
field operations. -/

theorem ratAdd_eq (a b : Rat) : ratAdd a b = a + b := by
  have ha : (a.den : Int) ≠ 0 := by exact_mod_cast a.den_nz
  have hb : (b.den : Int) ≠ 0 := by exact_mod_cast b.den_nz
  rw [ratAdd, Rat.mkRat_eq_divInt]
  conv_rhs => rw [← Rat.num_divInt_den a, ← Rat.num_divInt_den b]
  rw [Rat.divInt_add_divInt _ _ ha hb, Int.natCast_mul]

theorem ratSub_eq (a b : Rat) : ratSub a b = a - b := by
  have ha : (a.den : Int) ≠ 0 := by exact_mod_cast a.den_nz
  have hb : (b.den : Int) ≠ 0 := by exact_mod_cast b.den_nz
  rw [ratSub, Rat.mkRat_eq_divInt]
  conv_rhs => rw [← Rat.num_divInt_den a, ← Rat.num_divInt_den b]
  rw [Rat.divInt_sub_divInt _ _ ha hb, Int.natCast_mul]

theorem ratMul_eq (a b : Rat) : ratMul a b = a * b := by
  rw [ratMul, Rat.mkRat_eq_divInt]
  conv_rhs => rw [← Rat.num_divInt_den a, ← Rat.num_divInt_den b]
  rw [Rat.divInt_mul_divInt', Int.natCast_mul]

theorem ratDiv_eq (a b : Rat) : ratDiv a b = a / b := by
  have hdiv : a / b = Rat.divInt (a.num * (b.den : Int)) ((a.den : Int) * b.num) := by
    conv_lhs => rw [← Rat.num_divInt_den a, ← Rat.num_divInt_den b]
    rw [Rat.divInt_div_divInt]
  rcases lt_trichotomy b.num 0 with hneg | hzero | hpos
  · rw [ratDiv, if_pos hneg, Rat.mkRat_eq_divInt, hdiv]
    have ht : (((-b.num).toNat : Int)) = -b.num := Int.toNat_of_nonneg (by omega)
    rw [Int.natCast_mul, ht,
      show ((a.den : Int)) * -b.num = -((a.den : Int) * b.num) from by ring,
      Rat.neg_divInt_neg]
  · rw [ratDiv, if_neg (by omega), Rat.mkRat_eq_divInt, hdiv, hzero]
    simp
  · rw [ratDiv, if_neg (by omega), Rat.mkRat_eq_divInt, hdiv]
    have ht : ((b.num.toNat : Int)) = b.num := Int.toNat_of_nonneg (by omega)
    rw [Int.natCast_mul, ht]

theorem ratOfInt_eq (n : Int) : ratOfInt n = (n : Rat) := by
  rw [ratOfInt]
  simp

/-! Counting and fold lemmas for the tokenizers. -/

/-- Specification-side count of the top-level commas of an argument text
(§4.2): a comma is top-level when the number of preceding quote characters
of either kind is even; the flag carries the current quote parity. -/
def countTopCommas : List Char → Bool → Nat
  | [], _ => 0
  | c :: cs, inQ =>
    if c == '"' || c == '\'' then countTopCommas cs (!inQ)
    else if c == ',' && !inQ then countTopCommas cs inQ + 1
    else countTopCommas cs inQ

/-- The quote-toggling tokenizer emits one part per top-level comma, plus at
most one trailing part. -/
theorem tokenizeAux_length :
    ∀ (s : List Char) (cur : List Char) (inQ : Bool),
      countTopCommas s inQ ≤ (tokenizeAux s cur inQ).length ∧
        (tokenizeAux s cur inQ).length ≤ countTopCommas s inQ + 1 := by
  intro s
  induction s with
  | nil =>
    intro cur inQ
    constructor
    · exact Nat.zero_le _
    · show (if (pyStrip cur).isEmpty then [] else [pyStrip cur]).length ≤ 0 + 1
      cases (pyStrip cur).isEmpty <;> simp
  | cons c cs ih =>
    intro cur inQ
    by_cases hq : (c == '"' || c == '\'') = true
    · rw [show tokenizeAux (c :: cs) cur inQ = tokenizeAux cs (cur ++ [c]) (!inQ) from by
          rw [tokenizeAux, if_pos hq],
        show countTopCommas (c :: cs) inQ = countTopCommas cs (!inQ) from by
          rw [countTopCommas, if_pos hq]]
      exact ih (cur ++ [c]) (!inQ)
    · by_cases hc : (c == ',' && !inQ) = true
      · rw [show tokenizeAux (c :: cs) cur inQ = pyStrip cur :: tokenizeAux cs [] false from by
            rw [tokenizeAux, if_neg hq, if_pos hc],
          show countTopCommas (c :: cs) inQ = countTopCommas cs inQ + 1 from by
            rw [countTopCommas, if_neg hq, if_pos hc]]
        have hfalse : inQ = false := by
          rcases Bool.and_eq_true_iff.mp hc with ⟨_, h2⟩
          cases inQ
          · rfl
          · simp at h2
        subst hfalse
        have h1 := (ih [] false).1
        have h2 := (ih [] false).2
        constructor
        · simpa using Nat.succ_le_succ h1
        · simpa using Nat.succ_le_succ h2
      · rw [show tokenizeAux (c :: cs) cur inQ = tokenizeAux cs (cur ++ [c]) inQ from by
            rw [tokenizeAux, if_neg hq, if_neg hc],
          show countTopCommas (c :: cs) inQ = countTopCommas cs inQ from by
            rw [countTopCommas, if_neg hq, if_neg hc]]
        exact ih (cur ++ [c]) inQ

/-- Keyed binding ignores every token without `=`: the fold keeps its
accumulator on such tokens. -/
theorem step2Insert_fold_const :
    ∀ (pairs : List (List Char)) (acc : List (String × PyVal)),
      (∀ t ∈ pairs, (splitFirst ['='] t).isSome = false) →
      pairs.foldl step2Insert acc = acc := by
  intro pairs
  induction pairs with
  | nil => intro acc _; rfl
  | cons t rest ih =>
    intro acc h
    have ht : splitFirst ['='] t = none :=
      Option.not_isSome_iff_eq_none.mp (by simp [h t (List.mem_cons_self t rest)])
    rw [List.foldl_cons, step2Insert, ht]
    exact ih acc (fun u hu => h u (List.mem_cons_of_mem t hu))

/-! ## The claims -/

/-- C3: parsing `TOOL_CALL: calculator(5, 3, "+") TOOL_CALL_END` with the
positional, signature-typed path yields exactly one tool call with id
`call_0`, name `calculator`, and argument mapping
`a = 5.0, b = 3.0, operator = "+"` (the two float parameters coerced to
numbers, the quoted operator delivered as the bare string `+`). -/
theorem c3_positional_example_parse :
    parseToolCallsCustom "TOOL_CALL: calculator(5, 3, \"+\") TOOL_CALL_END" =
      [{ id := "call_0", name := "calculator",
         args := [("a", PyVal.float 5), ("b", PyVal.float 3),
                  ("operator", PyVal.str "+")] }] := by
  decide

/-- C4: parsing `TOOL_CALL: calculator(a=5, b=3, operator=+) TOOL_CALL_END`
with the keyed, signature-independent path yields one call whose bound
argument mapping equals the positional example's mapping
`a = 5.0, b = 3.0, operator = "+"`; numeric-looking values (all digits plus
at most one decimal point) become numbers, the literal tokens `true`/`false`
(case-insensitive) become booleans, and every other value stays a string. -/
theorem c4_keyed_example_parse :
    parseToolCallsStep2 "TOOL_CALL: calculator(a=5, b=3, operator=+) TOOL_CALL_END" =
      [{ id := "call_0", name := "calculator",
         args := [("a", PyVal.float 5), ("b", PyVal.float 3),
                  ("operator", PyVal.str "+")] }] ∧
    (parseToolCallsStep2 "TOOL_CALL: calculator(a=5, b=3, operator=+) TOOL_CALL_END").map
        ToolCall.args =
      (parseToolCallsCustom "TOOL_CALL: calculator(5, 3, \"+\") TOOL_CALL_END").map
        ToolCall.args ∧
    coerceStep2 "5".toList = PyVal.float 5 ∧
    coerceStep2 "12.5".toList = PyVal.float (mkRat 25 2) ∧
    coerceStep2 "TRUE".toList = PyVal.bool true ∧
    coerceStep2 "False".toList = PyVal.bool false ∧
    coerceStep2 "1.2.3".toList = PyVal.str "1.2.3" ∧
    coerceStep2 "+".toList = PyVal.str "+" := by
  refine ⟨?_, ?_, ?_, ?_, ?_, ?_, ?_, ?_⟩ <;> decide

/-- C10: in the keyed-grammar parser, every argument token with no `=` is
silently omitted from the mapping; a purely positional directive such as
`TOOL_CALL: calculator(5, 3, +) TOOL_CALL_END` still produces a tool call,
but with an empty argument mapping. -/
theorem c10_keyed_drops_positional_tokens :
    (∀ argsStr : List Char,
      (∀ t ∈ step2ArgPairs argsStr, (splitFirst ['='] t).isSome = false) →
      bindStep2Args argsStr = []) ∧
    parseToolCallsStep2 "TOOL_CALL: calculator(5, 3, +) TOOL_CALL_END" =
      [{ id := "call_0", name := "calculator", args := [] }] := by
  constructor
  · intro argsStr h
    unfold bindStep2Args
    by_cases he : (pyStrip argsStr).isEmpty = true
    · rw [if_pos he]
    · rw [if_neg he]
      exact step2Insert_fold_const (step2ArgPairs argsStr) [] h
  · decide

/-- C10 witness: the general part applied to the concrete arglist
`5, 3, +`, whose tokens all lack `=`. -/
theorem c10_keyed_drops_positional_tokens_witness :
    bindStep2Args "5, 3, +".toList = [] :=
  c10_keyed_drops_positional_tokens.1 "5, 3, +".toList (by decide)

/-- C6 (amended): the quote-toggling tokenizer of the positional variant
splits only on top-level commas — its part count always lies between the
top-level comma count and that count plus one, and the arglist of
`foo("a,b", 2)` tokenizes into exactly the two arguments `"a,b"` and `2` —
while the keyed variant splits on every comma, quoted or not. -/
theorem c6_top_level_comma_tokenization :
    (∀ s : List Char,
      countTopCommas s false ≤ (tokenizeArgs s).length ∧
        (tokenizeArgs s).length ≤ countTopCommas s false + 1) ∧
    tokenizeArgs "\"a,b\", 2".toList = ["\"a,b\"".toList, "2".toList] ∧
    countTopCommas "\"a,b\", 2".toList false = 1 ∧
    step2ArgPairs "\"a,b\", 2".toList = ["\"a".toList, "b\"".toList, "2".toList] := by
  refine ⟨fun s => tokenizeAux_length s [] false, ?_, ?_, ?_⟩ <;> decide

/-- C6 counterexample: the keyed variant's tokenizer splits the arglist
`"a,b", 2` into three parts, not two, and a quoted comma leaks into a bound
value — refuting the claim that quote-aware splitting holds for both
accepted arglist syntaxes. -/
theorem c6_counterexample_step2_splits_quoted_comma :
    (step2ArgPairs "\"a,b\", 2".toList).length = 3 ∧
    ¬ (step2ArgPairs "\"a,b\", 2".toList).length = 2 ∧
    parseToolCallsStep2 "TOOL_CALL: foo(x=\"a,b\", 2) TOOL_CALL_END" =
      [{ id := "call_0", name := "foo", args := [("x", PyVal.str "\"a")] }] := by
  refine ⟨?_, ?_, ?_⟩ <;> decide

/-- C9 (amended): the positional coercer's quote stripping removes all
leading and trailing quote characters of either kind (matched or not):
the input decomposes as quote-only margins around the result, the result
neither starts nor ends with a quote character, and in particular a single
matching pair is removed, a doubly quoted token loses both layers, and
mismatched outer quotes are both removed. -/
theorem c9_quote_stripping_all_layers :
    (∀ s : List Char, ∃ pre post,
        s = pre ++ pyStripQuotes s ++ post ∧
          (∀ c ∈ pre, isQuoteChar c = true) ∧ (∀ c ∈ post, isQuoteChar c = true)) ∧
    (∀ s : List Char, ∀ c : Char,
        (pyStripQuotes s).head? = some c → isQuoteChar c = false) ∧
    (∀ s : List Char, ∀ c : Char,
        (pyStripQuotes s).getLast? = some c → isQuoteChar c = false) ∧
    pyStripQuotes "\"+\"".toList = "+".toList ∧
    pyStripQuotes "\"\"x\"\"".toList = "x".toList ∧
    pyStripQuotes "\"x'".toList = "x".toList :=
  ⟨fun s => pyStripWith_decomp isQuoteChar s,
   fun s => pyStripWith_head isQuoteChar s,
   fun s => pyStripWith_getLast isQuoteChar s,
   by decide, by decide, by decide⟩

/-- C9 witness: the boundary properties applied to the concrete token
`""x""`. -/
theorem c9_quote_stripping_all_layers_witness :
    isQuoteChar 'x' = false ∧
    (∃ pre post,
      "\"\"x\"\"".toList = pre ++ pyStripQuotes "\"\"x\"\"".toList ++ post ∧
        (∀ c ∈ pre, isQuoteChar c = true) ∧ (∀ c ∈ post, isQuoteChar c = true)) :=
  ⟨c9_quote_stripping_all_layers.2.1 "\"\"x\"\"".toList 'x' (by decide),
   c9_quote_stripping_all_layers.1 "\"\"x\"\"".toList⟩

/-- C9 counterexample: `""x""` strips to `x`, not to `"x"`, and the
mismatched `"x'` strips to `x` — more than one layer and non-matching
pairs are removed, refuting the claim as stated; the behaviour is visible
through the full positional parser. -/
theorem c9_counterexample_double_and_mismatched_quotes :
    pyStripQuotes "\"\"x\"\"".toList = "x".toList ∧
    ¬ pyStripQuotes "\"\"x\"\"".toList = "\"x\"".toList ∧
    pyStripQuotes "\"x'".toList = "x".toList ∧
    ¬ pyStripQuotes "\"x'".toList = "\"x'".toList ∧
    parseToolCallsCustom "TOOL_CALL: calculator(1, 2, \"\"x\"\") TOOL_CALL_END" =
      [{ id := "call_0", name := "calculator",
         args := [("a", PyVal.float 1), ("b", PyVal.float 2),
                  ("operator", PyVal.str "x")] }] := by
  refine ⟨?_, ?_, ?_, ?_, ?_⟩ <;> decide

/-- C5 (amended): on any input with zero occurrences of `TOOL_CALL:`, both
parsers return an empty call list and `stripDirectives` returns the input
unchanged modulo whitespace trim; and `stripDirectives` is idempotent on
every input whose stripped output no longer contains `TOOL_CALL:` (removal
of matched spans can splice together a new directive, so idempotence does
not hold unconditionally). -/
theorem c5_strip_directives_no_marker :
    ∀ s : String,
      (pyContains "TOOL_CALL:" s = false →
        parseToolCallsCustom s = [] ∧ parseToolCallsStep2 s = [] ∧
          removeToolCalls s = (pyStrip s.toList).asString) ∧
      (pyContains "TOOL_CALL:" (removeToolCalls s) = false →
        removeToolCalls (removeToolCalls s) = removeToolCalls s) := by
  intro s
  constructor
  · intro h
    exact ⟨parseCustom_nil_of_no_marker s h, parseStep2_nil_of_no_marker s h,
      removeToolCalls_of_no_marker s h⟩
  · intro h
    rw [removeToolCalls_of_no_marker _ h]
    unfold removeToolCalls
    rw [toList_asString, pyStrip_idem]

/-- C5 witness: the no-marker clause on plain text, and conditional
idempotence on a text whose single directive strips away cleanly. -/
theorem c5_strip_directives_no_marker_witness :
    (parseToolCallsCustom "plain text" = [] ∧ parseToolCallsStep2 "plain text" = [] ∧
      removeToolCalls "plain text" = (pyStrip "plain text".toList).asString) ∧
    removeToolCalls (removeToolCalls "ab TOOL_CALL: x() TOOL_CALL_END cd") =
      removeToolCalls "ab TOOL_CALL: x() TOOL_CALL_END cd" :=
  ⟨(c5_strip_directives_no_marker "plain text").1 (by decide),
   (c5_strip_directives_no_marker "ab TOOL_CALL: x() TOOL_CALL_END cd").2 (by decide)⟩

/-- C5 counterexample: removing the two lazily matched directive spans of
this input splices the leftover fragments into a brand-new directive, so a
second application strips further — `stripDirectives` is not idempotent. -/
theorem c5_counterexample_idempotence_fails :
    removeToolCalls
        "TOOL_CATOOL_CALL:aTOOL_CALL_ENDLL: b TOOL_CALL_ETOOL_CALL:cTOOL_CALL_ENDND" =
      "TOOL_CALL: b TOOL_CALL_END" ∧
    removeToolCalls (removeToolCalls
        "TOOL_CATOOL_CALL:aTOOL_CALL_ENDLL: b TOOL_CALL_ETOOL_CALL:cTOOL_CALL_ENDND") = "" ∧
    ¬ removeToolCalls (removeToolCalls
        "TOOL_CATOOL_CALL:aTOOL_CALL_ENDLL: b TOOL_CALL_ETOOL_CALL:cTOOL_CALL_ENDND") =
      removeToolCalls
        "TOOL_CATOOL_CALL:aTOOL_CALL_ENDLL: b TOOL_CALL_ETOOL_CALL:cTOOL_CALL_ENDND" := by
  refine ⟨?_, ?_, ?_⟩ <;> decide

/-- C7: a turn whose incoming user text contains the termination marker
`TERMINATE` returns the terminal sentinel (`None`, not an error), makes
zero completion-provider requests, appends zero messages, and leaves the
turn counter unchanged — in both guarded variants. -/
theorem c7_termination_marker_terminal :
    ∀ (pS : List PyMessage → String) (pO : List PyMessage → OllamaReply)
      (st : AgentState) (input : String),
      pyContains "TERMINATE" input = true →
      handleMessageStep2 pS st input =
        { state := st, requests := 0, outcome := Except.ok none } ∧
      handleMessageOllama pO st input =
        { state := st, requests := 0, outcome := Except.ok none } := by
  intro pS pO st input h
  constructor
  · simp [handleMessageStep2, h]
  · simp [handleMessageOllama, h]

/-- C7 witness: a concrete terminal turn for both variants. -/
theorem c7_termination_marker_terminal_witness :
    handleMessageStep2 (fun _ => "reply")
        { messages := [], messageCount := 0, maxMessages := none } "please TERMINATE now" =
      { state := { messages := [], messageCount := 0, maxMessages := none },
        requests := 0, outcome := Except.ok none } ∧
    handleMessageOllama (fun _ => { content := some "reply", toolCalls := [] })
        { messages := [], messageCount := 0, maxMessages := none } "please TERMINATE now" =
      { state := { messages := [], messageCount := 0, maxMessages := none },
        requests := 0, outcome := Except.ok none } :=
  c7_termination_marker_terminal _ _ _ _ (by decide)

/-- C8 (amended): the turn counter increments exactly once per non-terminal
turn, regardless of how many tool calls occur within it; and for every
session configured with a nonzero `maxTurns` value, once the counter has
reached the limit every subsequent turn returns the terminal sentinel with
no further provider calls and no state change (a limit of 0 is falsy in the
source's truthiness test and imposes no limit at all). -/
theorem c8_turn_count_and_limit :
    ∀ (pS : List PyMessage → String) (pO : List PyMessage → OllamaReply)
      (st : AgentState) (input : String),
      (pyContains "TERMINATE" input = false → limitReached st = false →
        (handleMessageStep2 pS st input).state.messageCount = st.messageCount + 1 ∧
        (handleMessageOllama pO st input).state.messageCount = st.messageCount + 1) ∧
      (∀ m : Nat, st.maxMessages = some m → 0 < m → m ≤ st.messageCount →
        handleMessageStep2 pS st input =
          { state := st, requests := 0, outcome := Except.ok none } ∧
        handleMessageOllama pO st input =
          { state := st, requests := 0, outcome := Except.ok none }) := by
  intro pS pO st input
  constructor
  · intro hterm hlim
    constructor
    · show (if pyContains "TERMINATE" input = true then
          { state := st, requests := 0, outcome := Except.ok none }
        else if limitReached st = true then
          { state := st, requests := 0, outcome := Except.ok none }
        else runTurn parseToolCallsStep2 pS st input).state.messageCount =
          st.messageCount + 1
      rw [hterm, hlim]
      simp only [Bool.false_eq_true, if_false]
      exact runTurn_messageCount parseToolCallsStep2 pS st input
    · exact handleMessageOllama_messageCount pO st input hterm hlim
  · intro m hm hpos hle
    have hlimT : limitReached st = true := by
      simp only [limitReached, truthyNatOpt, hm, Option.getD_some, Bool.and_eq_true,
        bne_iff_ne, ne_eq, decide_eq_true_eq]
      exact ⟨by omega, hle⟩
    constructor
    · simp [handleMessageStep2, hlimT]
    · simp [handleMessageOllama, hlimT]

/-- C8 witness: one non-terminal turn increments the counter (with and
without tool calls), and a reached nonzero limit is terminal. -/
theorem c8_turn_count_and_limit_witness :
    (handleMessageStep2 (fun _ => "hello")
        { messages := [], messageCount := 0, maxMessages := none } "hi").state.messageCount = 1 ∧
    (handleMessageOllama (fun _ => { content := some "x", toolCalls := [] })
        { messages := [], messageCount := 0, maxMessages := none } "hi").state.messageCount = 1 ∧
    handleMessageStep2 (fun _ => "hello")
        { messages := [], messageCount := 5, maxMessages := some 3 } "hi" =
      { state := { messages := [], messageCount := 5, maxMessages := some 3 },
        requests := 0, outcome := Except.ok none } :=
  ⟨((c8_turn_count_and_limit (fun _ => "hello") (fun _ => { content := some "x", toolCalls := [] })
      { messages := [], messageCount := 0, maxMessages := none } "hi").1
      (by decide) (by decide)).1,
   ((c8_turn_count_and_limit (fun _ => "hello") (fun _ => { content := some "x", toolCalls := [] })
      { messages := [], messageCount := 0, maxMessages := none } "hi").1
      (by decide) (by decide)).2,
   ((c8_turn_count_and_limit (fun _ => "hello") (fun _ => { content := some "x", toolCalls := [] })
      { messages := [], messageCount := 5, maxMessages := some 3 } "hi").2 3
      rfl (by decide) (by decide)).1⟩

/-- C8 counterexample: with `maxTurns = 0` the counter (0) has reached the
limit, yet the turn is not terminal — it issues a completion request and
returns an answer, because `max_messages = 0` is falsy in the guard. -/
theorem c8_counterexample_zero_limit :
    (handleMessageStep2 (fun _ => "hello")
        { messages := [], messageCount := 0, maxMessages := some 0 } "hi").requests = 1 ∧
    ¬ (handleMessageStep2 (fun _ => "hello")
        { messages := [], messageCount := 0, maxMessages := some 0 } "hi").outcome =
      Except.ok none := by
  refine ⟨?_, ?_⟩ <;> decide

/-- C1 (amended): per user turn, a first reply with zero parsed directives
leads to exactly one completion request; a first reply with one or more
directives leads to exactly two requests provided tool dispatch succeeds,
while a keyword-binding fault aborts the turn after one request with the
exception escaping; in every case — including when the second reply itself
contains directive-looking text, which is never re-parsed — no turn makes
more than two requests. -/
theorem c1_request_rounds :
    ∀ (provider : List PyMessage → String) (st : AgentState) (input : String),
      (handleMessageCustom provider st input).requests ≤ 2 ∧
      (handleMessageStep2 provider st input).requests ≤ 2 ∧
      (parseToolCallsCustom (provider (firstReplyHistory st input)) = [] →
        (handleMessageCustom provider st input).requests = 1) ∧
      (∀ rs, parseToolCallsCustom (provider (firstReplyHistory st input)) ≠ [] →
        processToolCalls (parseToolCallsCustom (provider (firstReplyHistory st input))) =
          Except.ok rs →
        (handleMessageCustom provider st input).requests = 2) ∧
      (∀ e, processToolCalls (parseToolCallsCustom (provider (firstReplyHistory st input))) =
          Except.error e →
        (handleMessageCustom provider st input).requests = 1 ∧
        (handleMessageCustom provider st input).outcome = Except.error e) ∧
      (pyContains "TERMINATE" input = false → limitReached st = false →
        (parseToolCallsStep2 (provider (firstReplyHistory st input)) = [] →
          (handleMessageStep2 provider st input).requests = 1) ∧
        (∀ rs, parseToolCallsStep2 (provider (firstReplyHistory st input)) ≠ [] →
          processToolCalls (parseToolCallsStep2 (provider (firstReplyHistory st input))) =
            Except.ok rs →
          (handleMessageStep2 provider st input).requests = 2)) := by
  intro provider st input
  refine ⟨runTurn_requests_le _ _ _ _, ?_,
    fun h => runTurn_requests_nil _ _ _ _ h,
    fun rs hne hok => runTurn_requests_ok _ _ _ _ rs hne hok,
    fun e herr => runTurn_requests_error _ _ _ _ e herr,
    fun hterm hlim => ?_⟩
  · show (if pyContains "TERMINATE" input = true then
        { state := st, requests := 0, outcome := Except.ok none }
      else if limitReached st = true then
        { state := st, requests := 0, outcome := Except.ok none }
      else runTurn parseToolCallsStep2 provider st input).requests ≤ 2
    cases ht : pyContains "TERMINATE" input
    · simp only [Bool.false_eq_true, if_false]
      cases hl : limitReached st
      · simp only [Bool.false_eq_true, if_false]
        exact runTurn_requests_le _ _ _ _
      · simp
    · simp
  · constructor
    · intro h
      unfold handleMessageStep2
      rw [hterm, hlim]
      simp only [Bool.false_eq_true, if_false]
      exact runTurn_requests_nil _ _ _ _ h
    · intro rs hne hok
      unfold handleMessageStep2
      rw [hterm, hlim]
      simp only [Bool.false_eq_true, if_false]
      exact runTurn_requests_ok _ _ _ _ rs hne hok

/-- C1 witness: one-request and two-request turns at concrete providers,
for both parser variants; the two-request turn's second reply is the
directive text itself, and is not re-parsed. -/
theorem c1_request_rounds_witness :
    (handleMessageCustom (fun _ => "hello")
        { messages := [], messageCount := 0, maxMessages := none } "hi").requests = 1 ∧
    (handleMessageCustom (fun _ => "TOOL_CALL: calculator(5, 3, \"+\") TOOL_CALL_END")
        { messages := [], messageCount := 0, maxMessages := none } "hi").requests = 2 ∧
    (handleMessageStep2 (fun _ => "TOOL_CALL: calculator(a=5, b=3, operator=+) TOOL_CALL_END")
        { messages := [], messageCount := 0, maxMessages := none } "hi").requests = 2 :=
  ⟨(c1_request_rounds (fun _ => "hello")
      { messages := [], messageCount := 0, maxMessages := none } "hi").2.2.1 (by decide),
   (c1_request_rounds (fun _ => "TOOL_CALL: calculator(5, 3, \"+\") TOOL_CALL_END")
      { messages := [], messageCount := 0, maxMessages := none } "hi").2.2.2.1
      [{ toolCallId := "call_0", name := "calculator", content := "8.0" }]
      (by decide) (by decide),
   (((c1_request_rounds (fun _ => "TOOL_CALL: calculator(a=5, b=3, operator=+) TOOL_CALL_END")
      { messages := [], messageCount := 0, maxMessages := none } "hi").2.2.2.2.2
      (by decide) (by decide)).2
      [{ toolCallId := "call_0", name := "calculator", content := "8.0" }]
      (by decide) (by decide))⟩

/-- C1 counterexample: a first reply carrying one parsed directive whose
dispatch raises a binding fault makes only one completion request, refuting
"one or more parsed directives ⇒ exactly two requests". -/
theorem c1_counterexample_dispatch_fault :
    (parseToolCallsCustom "TOOL_CALL: calculator() TOOL_CALL_END").length = 1 ∧
    (handleMessageCustom (fun _ => "TOOL_CALL: calculator() TOOL_CALL_END")
        { messages := [], messageCount := 0, maxMessages := none } "hi").requests = 1 ∧
    ¬ (handleMessageCustom (fun _ => "TOOL_CALL: calculator() TOOL_CALL_END")
        { messages := [], messageCount := 0, maxMessages := none } "hi").requests = 2 := by
  refine ⟨?_, ?_, ?_⟩ <;> decide

/-- C2 (amended): anomalies degrade without a fault — an unknown tool name
is skipped without a result; text with no directive marker parses to an
empty call list, and so do malformed directives whose marker is present
but whose name, parentheses or closing delimiter the grammar cannot
complete; a failed numeric coercion is swallowed, the raw token kept as a
string, and the resulting call still dispatches, any tool-internal failure
(mixed-type arithmetic, division by zero) coming back as a normal
`"Error: ..."` result string; dispatching the registered tool with a
mapping that binds all three parameters never raises (the tool body is
fully exception-wrapped) — but a mapping that fails keyword binding raises
a `TypeError` out of the turn. -/
theorem c2_anomaly_degradation :
    (∀ calls : List ToolCall,
      (∀ c ∈ calls, (toolFunctions.lookup c.name).isNone = true) →
      processToolCalls calls = Except.ok []) ∧
    (∀ a b op : PyVal,
      callCalculator [("a", a), ("b", b), ("operator", op)] =
        Except.ok (calculator a b op)) ∧
    (∀ s : String, pyContains "TOOL_CALL:" s = false →
      parseToolCallsCustom s = [] ∧ parseToolCallsStep2 s = []) ∧
    (parseToolCallsCustom "TOOL_CALL: calculator 5 3 TOOL_CALL_END" = [] ∧
      parseToolCallsCustom "TOOL_CALL: calculator(5, 3" = [] ∧
      parseToolCallsCustom "TOOL_CALL: (5) TOOL_CALL_END" = [] ∧
      parseToolCallsCustom "TOOL_CALL: calculator(5) END" = [] ∧
      parseToolCallsStep2 "TOOL_CALL: calculator 5 3 TOOL_CALL_END" = [] ∧
      parseToolCallsStep2 "TOOL_CALL: calculator(5, 3" = []) ∧
    (∀ v : List Char, pyFloat? v = none →
      coerceCustom PyType.float v = PyVal.str v.asString) ∧
    (∀ v : List Char, pyInt? v = none →
      coerceCustom PyType.int v = PyVal.str v.asString) ∧
    (parseToolCallsCustom "TOOL_CALL: calculator(abc, 3, +) TOOL_CALL_END" =
      [{ id := "call_0", name := "calculator",
         args := [("a", PyVal.str "abc"), ("b", PyVal.float 3),
                  ("operator", PyVal.str "+")] }] ∧
      processToolCalls
          (parseToolCallsCustom "TOOL_CALL: calculator(abc, 3, +) TOOL_CALL_END") =
        Except.ok [{ toolCallId := "call_0", name := "calculator",
                     content := "Error: unsupported operand type(s) for +" }]) ∧
    (∀ a : PyVal, calculator a (PyVal.float 0) (PyVal.str "/") =
      "Error: Division by zero") := by
  refine ⟨?_, ?_, ?_, ?_, ?_, ?_, ?_, ?_⟩
  · intro calls h
    induction calls with
    | nil => rfl
    | cons c rest ih =>
      have hc : toolFunctions.lookup c.name = none :=
        Option.isNone_iff_eq_none.mp (h c (List.mem_cons_self c rest))
      simp only [processToolCalls, hc]
      exact ih (fun u hu => h u (List.mem_cons_of_mem c hu))
  · intro a b op
    rfl
  · intro s h
    exact ⟨parseCustom_nil_of_no_marker s h, parseStep2_nil_of_no_marker s h⟩
  · refine ⟨?_, ?_, ?_, ?_, ?_, ?_⟩ <;> decide
  · intro v h
    unfold coerceCustom
    rw [h]
  · intro v h
    unfold coerceCustom
    rw [h]
  · exact ⟨by decide, by decide⟩
  · intro a
    rfl

/-- C2 witness: the skipped unknown tool, the fully bound dispatch, the
markerless parse, the swallowed float and int coercion failures on a
concrete unparseable token, and the division-by-zero error string. -/
theorem c2_anomaly_degradation_witness :
    processToolCalls [{ id := "call_0", name := "translator", args := [] }] =
      Except.ok [] ∧
    callCalculator [("a", PyVal.float 5), ("b", PyVal.float 3),
        ("operator", PyVal.str "+")] = Except.ok "8.0" ∧
    parseToolCallsCustom "no directives here" = [] ∧
    coerceCustom PyType.float "abc".toList = PyVal.str "abc" ∧
    coerceCustom PyType.int "3.5".toList = PyVal.str "3.5" ∧
    calculator (PyVal.float 7) (PyVal.float 0) (PyVal.str "/") =
      "Error: Division by zero" := by
  refine ⟨c2_anomaly_degradation.1 _ (by decide), ?_,
    (c2_anomaly_degradation.2.2.1 "no directives here" (by decide)).1,
    c2_anomaly_degradation.2.2.2.2.1 "abc".toList (by decide),
    c2_anomaly_degradation.2.2.2.2.2.1 "3.5".toList (by decide),
    c2_anomaly_degradation.2.2.2.2.2.2.2 (PyVal.float 7)⟩
  rw [c2_anomaly_degradation.2.1]
  decide

/-- C2 counterexample: a parsed call to the registered tool whose mapping
does not bind the parameters (empty mapping, or an unexpected keyword)
raises a `TypeError` out of `process_tool_calls` — the fault propagates to
the orchestrator's caller instead of degrading. -/
theorem c2_counterexample_binding_fault :
    processToolCalls (parseToolCallsCustom "TOOL_CALL: calculator() TOOL_CALL_END") =
      Except.error "TypeError: calculator() missing required positional arguments" ∧
    processToolCalls (parseToolCallsStep2 "TOOL_CALL: calculator(x=1) TOOL_CALL_END") =
      Except.error "TypeError: calculator() got an unexpected keyword argument" := by
  refine ⟨?_, ?_⟩ <;> decide
